import Mathlib

/-!
A shallow embedding of `test/util/nc.py`, the repository's minimal netcat
replacement: an argparse command line (a `-z` flag plus `host` and `port`
positionals), one `socket.create_connection` attempt wrapped in
`except OSError: sys.exit(1)`, a probe mode that exits immediately, and a
bidirectional relay — `stdin_to_sock` running in a daemon thread, and the
socket-to-stdout loop in the main thread.
-/

namespace Nc

/-! ## Argument parsing

`nc.py` builds `argparse.ArgumentParser()` with `-z` (store_true), `host`
(string positional) and `port` (positional with `type=int`).
-/

/-- The whitespace characters Python's `int()` strips from both ends of a
string argument. -/
def pyIsSpace (c : Char) : Bool :=
  c = ' ' || c = '\t' || c = '\n' || c = '\r' || c = '\x0b' || c = '\x0c'

/-- Strip leading and trailing whitespace characters. -/
def stripEnds (cs : List Char) : List Char :=
  ((cs.dropWhile pyIsSpace).reverse.dropWhile pyIsSpace).reverse

/-- Numeric value of a string of decimal digits. -/
def digitsVal (cs : List Char) : Int :=
  cs.foldl (fun a c => a * 10 + ((c.toNat : Int) - 48)) 0

/-- Python `int(s)` on the ASCII decimal forms that argparse's `type=int`
feeds it: optional surrounding whitespace, an optional sign, then one or
more digits. `none` models the `ValueError` that argparse reports as
"invalid int value". -/
def pyInt? (s : String) : Option Int :=
  match stripEnds s.data with
  | [] => none
  | c :: cs =>
    if c = '+' then
      if !cs.isEmpty && cs.all Char.isDigit then some (digitsVal cs) else none
    else if c = '-' then
      if !cs.isEmpty && cs.all Char.isDigit then some (-(digitsVal cs)) else none
    else if (c :: cs).all Char.isDigit then some (digitsVal (c :: cs)) else none

/-- The parsed command line: `args.z`, `args.host`, `args.port`. -/
structure Args where
  z : Bool
  host : String
  port : Int
deriving Repr, DecidableEq

/-- The usage errors this parser can raise; each makes argparse print the
usage text plus a message to stderr and call `sys.exit(2)`. -/
inductive ParseError
  | missingArgs
  | badPort (tok : String)
  | unrecognized
deriving Repr, DecidableEq

/-- Outcome of `ap.parse_args()`. -/
inductive Parsed
  | ok (a : Args)
  | help
  | err (e : ParseError)
deriving Repr, DecidableEq

/-- A token of the form `-<digits>`: since this parser declares no options
that look like negative numbers, argparse treats such a token as a
positional rather than as an option. -/
def looksLikeNegNumber (s : String) : Bool :=
  match s.data with
  | c :: cs => c = '-' && !cs.isEmpty && cs.all Char.isDigit
  | [] => false

/-- Whether argparse classifies a token as an option for this parser: it
begins with the `-` option character, is longer than the bare `-`, and
does not look like a negative number. -/
def isOptionTok (s : String) : Bool :=
  match s.data with
  | c :: cs => c = '-' && !cs.isEmpty && !(looksLikeNegNumber s)
  | [] => false

/-- `ap.parse_args()` for the parser declared in `nc.py`, on the
invocation shapes the tool receives: `-h`/`--help` triggers the automatic
help action; otherwise the non-option tokens are matched against the
`host` and `port` positionals (`port` converted by `int`), and a
conversion failure, a missing positional, or leftover/unknown tokens are
usage errors. Type-conversion errors are raised while positionals are
consumed, before the leftover-token check, matching argparse's order. -/
def parseArgs (argv : List String) : Parsed :=
  if argv.contains "-h" || argv.contains "--help" then .help
  else
    let pos := argv.filter (fun t => !(isOptionTok t))
    let unknown := argv.filter (fun t => isOptionTok t && t != "-z")
    match pos with
    | [] => .err .missingArgs
    | [_] => .err .missingArgs
    | _host :: portTok :: rest =>
      match pyInt? portTok with
      | none => .err (.badPort portTok)
      | some p =>
        if !rest.isEmpty then .err .unrecognized
        else if !unknown.isEmpty then .err .unrecognized
        else .ok ⟨argv.contains "-z", _host, p⟩

/-! ## The socket session -/

/-- A socket session's two independently closable halves. -/
structure SockState where
  wrOpen : Bool
  rdOpen : Bool
deriving Repr, DecidableEq

/-- `sock.shutdown(socket.SHUT_WR)`: closes the send direction only; the
receive direction is untouched. -/
def sockShutdownWR (st : SockState) : SockState :=
  { st with wrOpen := false }

/-! ## The input loop `stdin_to_sock`

```
def stdin_to_sock():
    for line in sys.stdin:
        fd.write(line)
        fd.flush()
    try:
        sock.shutdown(socket.SHUT_WR)
    except OSError:
        pass
```

`writeFail = some k` models the environment in which the k-th
`fd.write`/`fd.flush` raises `OSError` (for instance the peer already
closed its receive side); the source has no handler around the loop body,
so that exception escapes the function uncaught. `shutdownErr` models
`sock.shutdown` raising `OSError`, which the source swallows.
-/

/-- What the input loop did by the time it stopped. -/
structure InputLoopResult where
  sent : List String
  shutdownAttempted : Bool
  wrClosed : Bool
  raisedUncaught : Bool
deriving Repr, DecidableEq

/-- The body of `stdin_to_sock`, as the summary of one complete execution
of the loop thread. -/
def stdin_to_sock (stdinLines : List String) (writeFail : Option Nat)
    (shutdownErr : Bool) : InputLoopResult :=
  match writeFail with
  | some k =>
    if k < stdinLines.length then
      { sent := stdinLines.take k, shutdownAttempted := false,
        wrClosed := false, raisedUncaught := true }
    else
      { sent := stdinLines, shutdownAttempted := true,
        wrClosed := !shutdownErr, raisedUncaught := false }
  | none =>
      { sent := stdinLines, shutdownAttempted := true,
        wrClosed := !shutdownErr, raisedUncaught := false }

/-- Number of loop iterations (counting the final shutdown step, or the
failing write, as one) after which the input loop thread is finished. -/
def ilIters (stdinLines : List String) (writeFail : Option Nat) : Nat :=
  match writeFail with
  | some k => if k < stdinLines.length then k + 1 else stdinLines.length + 1
  | none => stdinLines.length + 1

/-! ## Event traces of the two copy loops -/

/-- Observable events of a copy loop over the socket session. -/
inductive Ev
  | read (l : String)
  | write (l : String)
  | flush
  | shutdownWR
deriving Repr, DecidableEq

/-- One relay copy loop, `for line in src: dst.write(line); dst.flush()`,
as the trace of events it performs in order. -/
def copyLoop : List String → List Ev
  | [] => []
  | l :: rest => .read l :: .write l :: .flush :: copyLoop rest

/-- The trace of `stdin_to_sock` on a run where no write fails: the copy
loop over all of stdin, then the send-side half-close. -/
def inputLoopTrace (stdinLines : List String) : List Ev :=
  copyLoop stdinLines ++ [.shutdownWR]

/-- The trace of the foreground loop `for line in fd: sys.stdout.write(line);
sys.stdout.flush()`. -/
def outputLoopTrace (peerLines : List String) : List Ev :=
  copyLoop peerLines

/-! ## The whole process

The environment fixes everything outside the script: whether
`socket.create_connection` (and `sock.makefile`) succeeds, the lines
stdin yields, the lines the peer sends, whether some socket write or the
final shutdown raises, whether the foreground read raises, and — since
the input loop runs in a daemon thread that is never joined — how many of
its iterations the scheduler let it complete before the foreground loop
finished and the process exited. -/
structure Env where
  connectOk : Bool
  stdinLines : List String
  peerLines : List String
  writeFail : Option Nat
  shutdownErr : Bool
  recvErr : Bool
  inputProgress : Nat
deriving Repr, DecidableEq

/-- Externally observable outcome of one invocation of `nc.py`. -/
structure Result where
  exitCode : Nat
  stdoutLines : List String
  helpToStdout : Bool
  usageToStderr : Bool
  threadTracebackToStderr : Bool
  mainTracebackToStderr : Bool
  connectAttempts : Nat
  socketCreated : Bool
  sentLines : List String
  stdinLinesRead : Nat
  wrHalfClosedAtExit : Bool
  socketFullyClosedAtExit : Bool
  joinedBackgroundThread : Bool
  backgroundThreadDaemon : Bool
deriving Repr, DecidableEq

/-- The script `nc.py`, top to bottom: parse arguments (argparse prints
usage to stderr and exits with status 2 on a usage error, prints help and
exits 0 on `-h`); call `socket.create_connection` once, exiting quietly
with status 1 on `OSError`; on `-z`, exit 0 at once, the process exit
closing the socket; otherwise start `stdin_to_sock` as a daemon thread
(never joined) and run the socket-to-stdout loop in the main thread,
falling off the end of the script (exit 0) when the peer's stream ends —
or dying with a traceback and exit 1 if that read raises. An exception
escaping the background thread is printed as a traceback on stderr by the
interpreter's default thread exception hook and does not change the exit
status. -/
def run (argv : List String) (env : Env) : Result :=
  match parseArgs argv with
  | .err _ =>
    { exitCode := 2, stdoutLines := [], helpToStdout := false,
      usageToStderr := true, threadTracebackToStderr := false,
      mainTracebackToStderr := false, connectAttempts := 0,
      socketCreated := false, sentLines := [], stdinLinesRead := 0,
      wrHalfClosedAtExit := false, socketFullyClosedAtExit := false,
      joinedBackgroundThread := false, backgroundThreadDaemon := false }
  | .help =>
    { exitCode := 0, stdoutLines := [], helpToStdout := true,
      usageToStderr := false, threadTracebackToStderr := false,
      mainTracebackToStderr := false, connectAttempts := 0,
      socketCreated := false, sentLines := [], stdinLinesRead := 0,
      wrHalfClosedAtExit := false, socketFullyClosedAtExit := false,
      joinedBackgroundThread := false, backgroundThreadDaemon := false }
  | .ok a =>
    if env.connectOk then
      if a.z then
        { exitCode := 0, stdoutLines := [], helpToStdout := false,
          usageToStderr := false, threadTracebackToStderr := false,
          mainTracebackToStderr := false, connectAttempts := 1,
          socketCreated := true, sentLines := [], stdinLinesRead := 0,
          wrHalfClosedAtExit := false, socketFullyClosedAtExit := true,
          joinedBackgroundThread := false, backgroundThreadDaemon := false }
      else
        let il := stdin_to_sock env.stdinLines env.writeFail env.shutdownErr
        let finished := decide (ilIters env.stdinLines env.writeFail ≤ env.inputProgress)
        { exitCode := if env.recvErr then 1 else 0,
          stdoutLines := env.peerLines,
          helpToStdout := false, usageToStderr := false,
          threadTracebackToStderr := il.raisedUncaught && finished,
          mainTracebackToStderr := env.recvErr,
          connectAttempts := 1, socketCreated := true,
          sentLines := il.sent.take env.inputProgress,
          stdinLinesRead := (il.sent.take env.inputProgress).length,
          wrHalfClosedAtExit := il.wrClosed && finished,
          socketFullyClosedAtExit := true,
          joinedBackgroundThread := false,
          backgroundThreadDaemon := true }
    else
      { exitCode := 1, stdoutLines := [], helpToStdout := false,
        usageToStderr := false, threadTracebackToStderr := false,
        mainTracebackToStderr := false, connectAttempts := 1,
        socketCreated := false, sentLines := [], stdinLinesRead := 0,
        wrHalfClosedAtExit := false, socketFullyClosedAtExit := false,
        joinedBackgroundThread := false, backgroundThreadDaemon := false }

/-! ## The character-level view of the relayed data

`fd = sock.makefile('rw', buffering=1, encoding="utf-8")` and `sys.stdin`
are text-mode `io.TextIOWrapper` streams with the default `newline=None`,
so every read performs universal-newline translation: a `"\r\n"` pair and
a lone `"\r"` are both returned as `"\n"` (and bytes that are not valid
UTF-8 raise `UnicodeDecodeError` instead of being relayed). On the write
side, `newline=None` maps `"\n"` to `os.linesep`, which on the POSIX
hosts the test suite runs on is `"\n"` again, the identity. -/
def univNewlines : List Char → List Char
  | [] => []
  | [c] => if c = '\r' then ['\n'] else [c]
  | c :: d :: rest =>
    if c = '\r' then
      if d = '\n' then '\n' :: univNewlines rest
      else '\n' :: univNewlines (d :: rest)
    else c :: univNewlines (d :: rest)

/-- Text arriving on the socket, as written to stdout: the read through
`fd` applies universal-newline translation, the write to `sys.stdout` is
the identity on POSIX. -/
def sockToStdoutChars (peerText : List Char) : List Char :=
  univNewlines peerText

/-- Text arriving on stdin, as written to the socket: the read from
`sys.stdin` applies universal-newline translation, the write through `fd`
is the identity on POSIX. -/
def stdinToSockChars (stdinText : List Char) : List Char :=
  univNewlines stdinText

/-! ## Helper lemmas -/

/-- The copy loop itself never performs a half-close. -/
theorem shutdownWR_not_mem_copyLoop (L : List String) :
    Ev.shutdownWR ∉ copyLoop L := by
  induction L with
  | nil => simp [copyLoop]
  | cons l rest ih => simp [copyLoop, ih]

/-- Universal-newline translation is the identity on text without
carriage returns. -/
theorem univNewlines_of_no_cr (s : List Char) (h : '\r' ∉ s) :
    univNewlines s = s := by
  induction s with
  | nil => rfl
  | cons c rest ih =>
    have hc : c ≠ '\r' := fun e => h (by simp [e])
    have hr : '\r' ∉ rest := fun m => h (List.mem_cons_of_mem _ m)
    cases rest with
    | nil => simp [univNewlines, hc]
    | cons d rest2 => simp [univNewlines, hc, ih hr]

/-- The input loop always sends a prefix of stdin. -/
theorem stdin_to_sock_sent_take (stdinLines : List String)
    (writeFail : Option Nat) (shutdownErr : Bool) :
    ∃ n, (stdin_to_sock stdinLines writeFail shutdownErr).sent =
      stdinLines.take n := by
  cases writeFail with
  | none => exact ⟨stdinLines.length, by simp [stdin_to_sock]⟩
  | some k =>
    by_cases hk : k < stdinLines.length
    · exact ⟨k, by simp [stdin_to_sock, hk]⟩
    · exact ⟨stdinLines.length, by simp [stdin_to_sock, hk]⟩

/-- In a read/write/flush trace, a read at position `i` is followed at
once by the write of the same line and a flush of the sink. -/
theorem copyLoop_read_step (L : List String) (i : Nat) (l : String)
    (h : (copyLoop L)[i]? = some (Ev.read l)) :
    (copyLoop L)[i + 1]? = some (Ev.write l) ∧
    (copyLoop L)[i + 2]? = some Ev.flush := by
  induction L generalizing i with
  | nil => simp [copyLoop] at h
  | cons x rest ih =>
    rcases i with _ | _ | _ | n
    · simp [copyLoop] at h ⊢
      simp [h]
    · simp [copyLoop] at h
    · simp [copyLoop] at h
    · have h' : (copyLoop rest)[n]? = some (Ev.read l) := by
        simpa [copyLoop] using h
      have := ih n h'
      simpa [copyLoop] using this

/-! ## The claims -/

/-- C2: whenever establishing the TCP connection fails with an OS-level
connection error, the process terminates with exit status 1, prints
nothing on stdout or stderr, attempts the connection exactly once, and
relays nothing — identically whether or not `-z` was given (the parsed
arguments `a`, including `a.z`, do not appear in the outcome). -/
theorem connect_failure_silent (argv : List String) (env : Env) (a : Args)
    (hp : parseArgs argv = .ok a) (hc : env.connectOk = false) :
    run argv env =
      { exitCode := 1, stdoutLines := [], helpToStdout := false,
        usageToStderr := false, threadTracebackToStderr := false,
        mainTracebackToStderr := false, connectAttempts := 1,
        socketCreated := false, sentLines := [], stdinLinesRead := 0,
        wrHalfClosedAtExit := false, socketFullyClosedAtExit := false,
        joinedBackgroundThread := false, backgroundThreadDaemon := false } := by
  simp [run, hp, hc]

/-- Witness for C2 at a concrete refused connection. -/
theorem connect_failure_silent_witness :
    parseArgs ["localhost", "2025"] = Parsed.ok ⟨false, "localhost", 2025⟩ ∧
    run ["localhost", "2025"]
      { connectOk := false, stdinLines := ["x\n"], peerLines := ["y\n"],
        writeFail := none, shutdownErr := false, recvErr := false,
        inputProgress := 0 } =
      { exitCode := 1, stdoutLines := [], helpToStdout := false,
        usageToStderr := false, threadTracebackToStderr := false,
        mainTracebackToStderr := false, connectAttempts := 1,
        socketCreated := false, sentLines := [], stdinLinesRead := 0,
        wrHalfClosedAtExit := false, socketFullyClosedAtExit := false,
        joinedBackgroundThread := false, backgroundThreadDaemon := false } :=
  ⟨by decide,
   connect_failure_silent ["localhost", "2025"]
     { connectOk := false, stdinLines := ["x\n"], peerLines := ["y\n"],
       writeFail := none, shutdownErr := false, recvErr := false,
       inputProgress := 0 }
     ⟨false, "localhost", 2025⟩ (by decide) rfl⟩

/-- C3: with `-z` and a successful connection, the process exits with
status 0 and the process exit closes the socket session entirely; zero
bytes are relayed in either direction — nothing read from stdin, nothing
written to stdout, nothing sent on the socket. -/
theorem probe_success_no_relay (argv : List String) (env : Env) (a : Args)
    (hp : parseArgs argv = .ok a) (hz : a.z = true)
    (hc : env.connectOk = true) :
    run argv env =
      { exitCode := 0, stdoutLines := [], helpToStdout := false,
        usageToStderr := false, threadTracebackToStderr := false,
        mainTracebackToStderr := false, connectAttempts := 1,
        socketCreated := true, sentLines := [], stdinLinesRead := 0,
        wrHalfClosedAtExit := false, socketFullyClosedAtExit := true,
        joinedBackgroundThread := false, backgroundThreadDaemon := false } := by
  simp [run, hp, hc, hz]

/-- Witness for C3 at a concrete probe invocation. -/
theorem probe_success_no_relay_witness :
    parseArgs ["-z", "localhost", "25"] = Parsed.ok ⟨true, "localhost", 25⟩ ∧
    run ["-z", "localhost", "25"]
      { connectOk := true, stdinLines := ["x\n"], peerLines := ["y\n"],
        writeFail := none, shutdownErr := false, recvErr := false,
        inputProgress := 7 } =
      { exitCode := 0, stdoutLines := [], helpToStdout := false,
        usageToStderr := false, threadTracebackToStderr := false,
        mainTracebackToStderr := false, connectAttempts := 1,
        socketCreated := true, sentLines := [], stdinLinesRead := 0,
        wrHalfClosedAtExit := false, socketFullyClosedAtExit := true,
        joinedBackgroundThread := false, backgroundThreadDaemon := false } :=
  ⟨by decide,
   probe_success_no_relay ["-z", "localhost", "25"]
     { connectOk := true, stdinLines := ["x\n"], peerLines := ["y\n"],
       writeFail := none, shutdownErr := false, recvErr := false,
       inputProgress := 7 }
     ⟨true, "localhost", 25⟩ (by decide) rfl rfl⟩

/-- C4: when stdin reaches end-of-input the input loop has written every
stdin line, performs the send-side half-close — which closes only the
write direction of the socket, leaving the read direction as it was —
and returns without an uncaught exception even when the shutdown call
itself raises `OSError` (the `except OSError: pass` swallows it). -/
theorem eof_halfclose_swallowed (stdinLines : List String)
    (shutdownErr : Bool) (st : SockState) :
    (stdin_to_sock stdinLines none shutdownErr).sent = stdinLines ∧
    (stdin_to_sock stdinLines none shutdownErr).shutdownAttempted = true ∧
    (stdin_to_sock stdinLines none shutdownErr).raisedUncaught = false ∧
    (sockShutdownWR st).wrOpen = false ∧
    (sockShutdownWR st).rdOpen = st.rdOpen := by
  simp [stdin_to_sock, sockShutdownWR]

/-- C9: an invocation rejected by argument validation (non-numeric port,
missing host, unknown flag) is reported as a usage error before any
connection attempt: `socket.create_connection` is never called and no
socket is ever created. -/
theorem malformed_args_no_connect (argv : List String) (env : Env)
    (e : ParseError) (hp : parseArgs argv = .err e) :
    (run argv env).connectAttempts = 0 ∧
    (run argv env).socketCreated = false ∧
    (run argv env).usageToStderr = true := by
  simp [run, hp]

/-- Witness for C9 at the concrete non-numeric port `abc`. -/
theorem malformed_args_no_connect_witness :
    parseArgs ["localhost", "abc"] = Parsed.err (ParseError.badPort "abc") ∧
    ((run ["localhost", "abc"]
      { connectOk := true, stdinLines := [], peerLines := [],
        writeFail := none, shutdownErr := false, recvErr := false,
        inputProgress := 0 }).connectAttempts = 0 ∧
     (run ["localhost", "abc"]
      { connectOk := true, stdinLines := [], peerLines := [],
        writeFail := none, shutdownErr := false, recvErr := false,
        inputProgress := 0 }).socketCreated = false ∧
     (run ["localhost", "abc"]
      { connectOk := true, stdinLines := [], peerLines := [],
        writeFail := none, shutdownErr := false, recvErr := false,
        inputProgress := 0 }).usageToStderr = true) :=
  ⟨by decide,
   malformed_args_no_connect ["localhost", "abc"]
     { connectOk := true, stdinLines := [], peerLines := [],
       writeFail := none, shutdownErr := false, recvErr := false,
       inputProgress := 0 }
     (ParseError.badPort "abc") (by decide)⟩

/-- C10: every usage error (non-numeric port, missing positional, unknown
flag) exits with status 2 — distinct from both documented statuses 0 and
1 — with the usage message on stderr, so callers can tell usage errors
from connection failures. -/
theorem usage_error_exit_two (argv : List String) (env : Env)
    (e : ParseError) (hp : parseArgs argv = .err e) :
    (run argv env).exitCode = 2 ∧
    (run argv env).usageToStderr = true ∧
    (run argv env).exitCode ≠ 0 ∧
    (run argv env).exitCode ≠ 1 := by
  simp [run, hp]

/-- Witness for C10 at the concrete unknown flag `-q`. -/
theorem usage_error_exit_two_witness :
    parseArgs ["-q", "localhost", "25"] = Parsed.err ParseError.unrecognized ∧
    ((run ["-q", "localhost", "25"]
      { connectOk := true, stdinLines := [], peerLines := [],
        writeFail := none, shutdownErr := false, recvErr := false,
        inputProgress := 0 }).exitCode = 2 ∧
     (run ["-q", "localhost", "25"]
      { connectOk := true, stdinLines := [], peerLines := [],
        writeFail := none, shutdownErr := false, recvErr := false,
        inputProgress := 0 }).usageToStderr = true ∧
     (run ["-q", "localhost", "25"]
      { connectOk := true, stdinLines := [], peerLines := [],
        writeFail := none, shutdownErr := false, recvErr := false,
        inputProgress := 0 }).exitCode ≠ 0 ∧
     (run ["-q", "localhost", "25"]
      { connectOk := true, stdinLines := [], peerLines := [],
        writeFail := none, shutdownErr := false, recvErr := false,
        inputProgress := 0 }).exitCode ≠ 1) :=
  ⟨by decide,
   usage_error_exit_two ["-q", "localhost", "25"]
     { connectOk := true, stdinLines := [], peerLines := [],
       writeFail := none, shutdownErr := false, recvErr := false,
       inputProgress := 0 }
     ParseError.unrecognized (by decide)⟩

/-- C1: in every relay run, the input loop's half-close event sits after
every read and every write of its trace — it occurs no earlier than
input exhaustion — and since `SHUT_WR` leaves the read direction of the
socket as it was, the foreground loop still writes to stdout exactly
what the peer sends, for any peer lines whatsoever, in particular a
response sent only after the peer saw the local half-close. -/
theorem halfclose_after_input_response_received (argv : List String)
    (env : Env) (a : Args) (i : Nat)
    (hp : parseArgs argv = .ok a) (hz : a.z = false)
    (hc : env.connectOk = true)
    (hi : (inputLoopTrace env.stdinLines)[i]? = some Ev.shutdownWR) :
    (∀ j l, (inputLoopTrace env.stdinLines)[j]? = some (Ev.read l) → j < i) ∧
    (∀ j l, (inputLoopTrace env.stdinLines)[j]? = some (Ev.write l) → j < i) ∧
    (∀ st : SockState, (sockShutdownWR st).rdOpen = st.rdOpen) ∧
    (run argv env).stdoutLines = env.peerLines := by
  have hilen : i = (copyLoop env.stdinLines).length := by
    rcases Nat.lt_or_ge i (copyLoop env.stdinLines).length with h | h
    · rw [inputLoopTrace, List.getElem?_append_left h] at hi
      exact absurd (List.getElem?_mem hi)
        (shutdownWR_not_mem_copyLoop env.stdinLines)
    · have hb : i < (inputLoopTrace env.stdinLines).length :=
        (List.getElem?_eq_some_iff.mp hi).1
      rw [inputLoopTrace, List.length_append, List.length_singleton] at hb
      omega
  have hpos : ∀ j (e : Ev), e ≠ Ev.shutdownWR →
      (inputLoopTrace env.stdinLines)[j]? = some e → j < i := by
    intro j e he hj
    have hb : j < (inputLoopTrace env.stdinLines).length :=
      (List.getElem?_eq_some_iff.mp hj).1
    rw [inputLoopTrace, List.length_append, List.length_singleton] at hb
    rcases Nat.lt_or_ge j (copyLoop env.stdinLines).length with h | h
    · omega
    · have hj' : j = (copyLoop env.stdinLines).length := by omega
      rw [inputLoopTrace, hj', List.getElem?_concat_length] at hj
      exact absurd (Option.some.inj hj).symm he
  refine ⟨fun j l hj => hpos j (Ev.read l) (by simp) hj,
          fun j l hj => hpos j (Ev.write l) (by simp) hj,
          fun st => rfl, ?_⟩
  simp [run, hp, hc, hz]

/-- Witness for C1: one finite stdin line, the peer answering `bye` after
seeing the half-close; the half-close event sits at index 3, after the
read/write/flush of the single line, and `bye` reaches stdout. -/
theorem halfclose_after_input_response_received_witness :
    parseArgs ["localhost", "2525"] = Parsed.ok ⟨false, "localhost", 2525⟩ ∧
    (inputLoopTrace ["hello\n"])[3]? = some Ev.shutdownWR ∧
    (run ["localhost", "2525"]
      { connectOk := true, stdinLines := ["hello\n"], peerLines := ["bye\n"],
        writeFail := none, shutdownErr := false, recvErr := false,
        inputProgress := 2 }).stdoutLines = ["bye\n"] :=
  ⟨by decide, by decide,
   (halfclose_after_input_response_received ["localhost", "2525"]
     { connectOk := true, stdinLines := ["hello\n"], peerLines := ["bye\n"],
       writeFail := none, shutdownErr := false, recvErr := false,
       inputProgress := 2 }
     ⟨false, "localhost", 2525⟩ 3 (by decide) rfl rfl (by decide)).2.2.2⟩

/-- C5: if the peer closes the connection cleanly while the input loop is
still waiting on an unexhausted stdin (its progress short of stdin's
length), the process exits with status 0 anyway: the background thread is
a daemon and is never joined, so it cannot block process exit. -/
theorem peer_close_bounds_lifetime (argv : List String) (env : Env)
    (a : Args) (hp : parseArgs argv = .ok a) (hz : a.z = false)
    (hc : env.connectOk = true) (hr : env.recvErr = false)
    (hwait : env.inputProgress < env.stdinLines.length) :
    (run argv env).exitCode = 0 ∧
    (run argv env).joinedBackgroundThread = false ∧
    (run argv env).backgroundThreadDaemon = true := by
  simp [run, hp, hc, hz, hr]

/-- Witness for C5: the peer closes after `hi` while two stdin lines are
still pending (progress 0 out of 2). -/
theorem peer_close_bounds_lifetime_witness :
    (0 : Nat) < 2 ∧
    ((run ["localhost", "25"]
      { connectOk := true, stdinLines := ["a\n", "b\n"], peerLines := ["hi\n"],
        writeFail := none, shutdownErr := false, recvErr := false,
        inputProgress := 0 }).exitCode = 0 ∧
     (run ["localhost", "25"]
      { connectOk := true, stdinLines := ["a\n", "b\n"], peerLines := ["hi\n"],
        writeFail := none, shutdownErr := false, recvErr := false,
        inputProgress := 0 }).joinedBackgroundThread = false ∧
     (run ["localhost", "25"]
      { connectOk := true, stdinLines := ["a\n", "b\n"], peerLines := ["hi\n"],
        writeFail := none, shutdownErr := false, recvErr := false,
        inputProgress := 0 }).backgroundThreadDaemon = true) :=
  ⟨by decide,
   peer_close_bounds_lifetime ["localhost", "25"]
     { connectOk := true, stdinLines := ["a\n", "b\n"], peerLines := ["hi\n"],
       writeFail := none, shutdownErr := false, recvErr := false,
       inputProgress := 0 }
     ⟨false, "localhost", 25⟩ (by decide) rfl rfl rfl (by decide)⟩

/-- C6 counterexample: the relay is not payload-agnostic. The peer sends
the three bytes `a`, CR, LF; the text-mode read translates the CRLF pair,
and stdout receives `a`, LF — not the same raw bytes. -/
theorem payload_altered_crlf :
    sockToStdoutChars ['a', '\r', '\n'] ≠ ['a', '\r', '\n'] ∧
    sockToStdoutChars ['a', '\r', '\n'] = ['a', '\n'] := by
  constructor
  · decide
  · decide

/-- C6 as amended: the relay is line-oriented UTF-8 text, not raw bytes —
both directions pass through text-mode streams whose reads apply
universal-newline translation (and reject non-UTF-8 input); for payload
text containing no carriage return the relay is the identity in both
directions. -/
theorem text_relay_preserves_crlf_free (s : List Char) (h : '\r' ∉ s) :
    stdinToSockChars s = s ∧ sockToStdoutChars s = s :=
  ⟨univNewlines_of_no_cr s h, univNewlines_of_no_cr s h⟩

/-- Witness for the amended C6 on the CR-free text `hi`, LF. -/
theorem text_relay_preserves_crlf_free_witness :
    '\r' ∉ ['h', 'i', '\n'] ∧
    (stdinToSockChars ['h', 'i', '\n'] = ['h', 'i', '\n'] ∧
     sockToStdoutChars ['h', 'i', '\n'] = ['h', 'i', '\n']) :=
  ⟨by decide, text_relay_preserves_crlf_free ['h', 'i', '\n'] (by decide)⟩

/-- C7 counterexample: a socket write that raises in the input loop IS
surfaced as a diagnostic — the loop body has no handler, so the escaped
exception is printed as a thread traceback on stderr (here: the very
first write fails and the scheduler let the thread run to its end). -/
theorem write_error_traceback :
    (run ["localhost", "2025"]
      { connectOk := true, stdinLines := ["hello\n"], peerLines := [],
        writeFail := some 0, shutdownErr := false, recvErr := false,
        inputProgress := 2 }).threadTracebackToStderr = true ∧
    (run ["localhost", "2025"]
      { connectOk := true, stdinLines := ["hello\n"], peerLines := [],
        writeFail := some 0, shutdownErr := false, recvErr := false,
        inputProgress := 2 }).exitCode = 0 := by
  constructor
  · decide
  · decide

/-- C7 as amended: an error while writing to the socket ends the input
loop (what was sent is a prefix of stdin) and never touches the exit
status — the status equals that of the same run with no write failure
and is governed solely by whether the foreground loop's read stream ended
cleanly; there is no distinct transmission-failed status. The escaped
exception is, however, printed as a thread traceback on stderr. -/
theorem write_error_nonfatal_exit (argv : List String) (env : Env)
    (a : Args) (hp : parseArgs argv = .ok a) (hz : a.z = false)
    (hc : env.connectOk = true) :
    (run argv env).exitCode = (if env.recvErr then 1 else 0) ∧
    (run argv env).exitCode = (run argv { env with writeFail := none }).exitCode ∧
    (∃ n, (run argv env).sentLines = env.stdinLines.take n) := by
  obtain ⟨n, hn⟩ :=
    stdin_to_sock_sent_take env.stdinLines env.writeFail env.shutdownErr
  refine ⟨?_, ?_, ⟨min env.inputProgress n, ?_⟩⟩
  · simp [run, hp, hc, hz]
  · simp [run, hp, hc, hz]
  · simp only [run, hp, hc, hz]
    simp only [if_true]
    simp [hn, List.take_take]

/-- Witness for the amended C7: the first write fails, yet the exit
status is 0 and the empty send is a prefix of stdin. -/
theorem write_error_nonfatal_exit_witness :
    parseArgs ["localhost", "2125"] = Parsed.ok ⟨false, "localhost", 2125⟩ ∧
    ((run ["localhost", "2125"]
      { connectOk := true, stdinLines := ["a\n", "b\n"], peerLines := [],
        writeFail := some 0, shutdownErr := false, recvErr := false,
        inputProgress := 5 }).exitCode = (if false then 1 else 0) ∧
     (run ["localhost", "2125"]
      { connectOk := true, stdinLines := ["a\n", "b\n"], peerLines := [],
        writeFail := some 0, shutdownErr := false, recvErr := false,
        inputProgress := 5 }).exitCode =
     (run ["localhost", "2125"]
      { connectOk := true, stdinLines := ["a\n", "b\n"], peerLines := [],
        writeFail := none, shutdownErr := false, recvErr := false,
        inputProgress := 5 }).exitCode ∧
     (∃ n, (run ["localhost", "2125"]
      { connectOk := true, stdinLines := ["a\n", "b\n"], peerLines := [],
        writeFail := some 0, shutdownErr := false, recvErr := false,
        inputProgress := 5 }).sentLines = ["a\n", "b\n"].take n)) :=
  ⟨by decide,
   write_error_nonfatal_exit ["localhost", "2125"]
     { connectOk := true, stdinLines := ["a\n", "b\n"], peerLines := [],
       writeFail := some 0, shutdownErr := false, recvErr := false,
       inputProgress := 5 }
     ⟨false, "localhost", 2125⟩ (by decide) rfl rfl⟩

/-- C8: on both relay paths every discrete unit is flushed immediately:
in the copy-loop trace shared by the stdin-to-socket loop and the
socket-to-stdout loop, each read of a line is followed at the very next
positions by the write of that same line and a flush, before any further
read; the input loop's full trace is that copy loop then the half-close,
the output loop's trace is the copy loop itself. -/
theorem every_chunk_flushed (L : List String) (i : Nat) (l : String)
    (h : (copyLoop L)[i]? = some (Ev.read l)) :
    (copyLoop L)[i + 1]? = some (Ev.write l) ∧
    (copyLoop L)[i + 2]? = some Ev.flush ∧
    inputLoopTrace L = copyLoop L ++ [Ev.shutdownWR] ∧
    outputLoopTrace L = copyLoop L :=
  ⟨(copyLoop_read_step L i l h).1, (copyLoop_read_step L i l h).2, rfl, rfl⟩

/-- Witness for C8 at the first line of a two-line trace. -/
theorem every_chunk_flushed_witness :
    (copyLoop ["a\n", "b\n"])[0]? = some (Ev.read "a\n") ∧
    ((copyLoop ["a\n", "b\n"])[1]? = some (Ev.write "a\n") ∧
     (copyLoop ["a\n", "b\n"])[2]? = some Ev.flush ∧
     inputLoopTrace ["a\n", "b\n"] = copyLoop ["a\n", "b\n"] ++ [Ev.shutdownWR] ∧
     outputLoopTrace ["a\n", "b\n"] = copyLoop ["a\n", "b\n"]) :=
  ⟨by decide, every_chunk_flushed ["a\n", "b\n"] 0 "a\n" (by decide)⟩

end Nc
